import Mathlib

/-!
# Towify — verification of the session/role-resolution and scoped data-access layer

Shallow embedding of the role router, role lookup, plate search, fine payment,
complaint resolution and tow-recording logic of the Towify sources, together
with theorems settling the specification claims about them.

Conventions: timestamps are naturals (`now > dueDate` becomes `dueDate < now`),
database rows are Lean structures, a table is a `List` of rows, and a supabase
query is the corresponding pure filter/lookup on that list.  JavaScript string
truthiness (`if (x)` on a `string | null`) is modelled as the test against
`none` and `""`.  String case operations are modelled on the character list so
that they compute by kernel reduction.
-/

namespace Towify

/-- JavaScript `toLowerCase()` on the character list. -/
def jsToLower (s : String) : String := String.mk (s.data.map Char.toLower)

/-- JavaScript `toUpperCase()` on the character list. -/
def jsToUpper (s : String) : String := String.mk (s.data.map Char.toUpper)

/-- JavaScript `trim()`: whitespace stripped from both ends. -/
def jsTrim (s : String) : String :=
  String.mk (((s.data.dropWhile Char.isWhitespace).reverse.dropWhile
      Char.isWhitespace).reverse)

/-! ## Role router (src/unnamed/part_007) -/

/-- Navigation targets of the app (the `router.replace` pathnames, plus the
splash hold state in which no navigation happens yet). -/
inductive Destination
  | login
  | ownerDashboard
  | staffDashboard
  | officerDashboard
  | splashHold
  deriving DecidableEq, Repr

/-- `navigateToDashboard` (src/unnamed/part_007 lines 4–38): a falsy role
(`null` or the empty string) routes to login; otherwise the role is lowercased
and switched over the three recognized values, the default case routing to
login. -/
def navigateToDashboard (role : Option String) : Destination :=
  match role with
  | none => Destination.login
  | some r =>
    if r = "" then Destination.login
    else if jsToLower r = "owner" then Destination.ownerDashboard
    else if jsToLower r = "staff" then Destination.staffDashboard
    else if jsToLower r = "officer" then Destination.officerDashboard
    else Destination.login

/-! ## Role lookup (src/unnamed/part_006 `fetchUserRole`,
src/unnamed/part_003 `handleLogin`) -/

/-- Outcome of the supabase `profiles.select('role').eq('id', uid).single()`
call, as seen by the client: a backend/network failure, the no-matching-row
error that `.single()` produces, or a row with its (possibly null) `role`
column. -/
inductive RoleLookup
  | backendError
  | noRow
  | row (role : Option String)
  deriving DecidableEq, Repr

/-- `fetchUserRole` (src/unnamed/part_006 lines 70–90): any error — backend
failure or missing row alike — sets the user role to `null`
(`setUserRole(null)` in both the error branch and the catch); on success the
role becomes `data?.role || null`, i.e. the stored value verbatim with falsy
values collapsed to `null`.  The function exposes no error channel. -/
def fetchUserRole (res : RoleLookup) : Option String :=
  match res with
  | RoleLookup.backendError => none
  | RoleLookup.noRow => none
  | RoleLookup.row r =>
    match r with
    | none => none
    | some s => if s = "" then none else some s

/-- What the login screen does with the role lookup after a successful
credential check. -/
inductive LoginOutcome
  | alertProfileError
  | alertNoRole
  | alertUnknownRole (role : String)
  | navigate (d : Destination)
  deriving DecidableEq, Repr

/-- `handleLogin`'s role handling (src/unnamed/part_003 lines 63–95): a failed
profile fetch (which includes the `.single()` no-row error) raises the
"Profile Error" alert; a falsy role raises "No role assigned"; otherwise the
lowercased role is switched over the three recognized values, the default case
raising "Unknown role". -/
def handleLoginRole (res : RoleLookup) : LoginOutcome :=
  match res with
  | RoleLookup.backendError => LoginOutcome.alertProfileError
  | RoleLookup.noRow => LoginOutcome.alertProfileError
  | RoleLookup.row r =>
    match r with
    | none => LoginOutcome.alertNoRole
    | some role =>
      if role = "" then LoginOutcome.alertNoRole
      else if jsToLower role = "owner" then
        LoginOutcome.navigate Destination.ownerDashboard
      else if jsToLower role = "staff" then
        LoginOutcome.navigate Destination.staffDashboard
      else if jsToLower role = "officer" then
        LoginOutcome.navigate Destination.officerDashboard
      else LoginOutcome.alertUnknownRole role

/-! ## Data model rows -/

/-- A row of the `vehicles` table (fields as selected by the screens). -/
structure Vehicle where
  id : String
  license_plate : String
  make : String
  model : String
  color : String
  owner_id : Option String
  registered_name : Option String
  deriving DecidableEq, Repr

/-- Stored fine status values (the TypeScript union
`'unpaid' | 'paid' | 'overdue'`). -/
inductive FineStatus
  | unpaid
  | paid
  | overdue
  deriving DecidableEq, Repr

/-- A row of the `fines` table.  `amount` is kept abstract as a natural
number of cents; dates are natural-number timestamps. -/
structure Fine where
  id : String
  vehicle_id : String
  amount : Nat
  description : String
  issue_date : Nat
  due_date : Option Nat
  status : FineStatus
  payment_date : Option Nat
  transaction_id : Option String
  tow_id : Option String
  created_by : Option String
  deriving DecidableEq, Repr

/-- Stored complaint status values. -/
inductive ComplaintStatus
  | pending
  | in_review
  | resolved
  | rejected
  deriving DecidableEq, Repr

/-- A row of the `complaints` table (fields the complaint screens use). -/
structure Complaint where
  id : String
  user_id : String
  subject : String
  status : ComplaintStatus
  response : Option String
  resolved_at : Option Nat
  resolved_by : Option String
  created_at : Nat
  deriving DecidableEq, Repr

/-! ## Owner-scoped queries (C2) -/

/-- `fetchVehicles` (src/src/screens/VehicleListScreen.tsx lines 45–53):
`vehicles.select('*').eq('owner_id', session.user.id)`. -/
def fetchVehicles (db : List Vehicle) (userId : String) : List Vehicle :=
  db.filter (fun v => v.owner_id = some userId)

/-- `fetchComplaints` (src/unnamed/part_011 lines 70–77):
`complaints.select('*').eq('user_id', session.user.id)` ordered by
`created_at` descending — modelled as the filter followed by a merge sort on
the descending order, which permutes but never adds rows. -/
def fetchComplaints (db : List Complaint) (userId : String) : List Complaint :=
  (db.filter (fun c => c.user_id = userId)).mergeSort
    (fun a b => b.created_at ≤ a.created_at)

/-- Error outcomes of the fine-details fetch. -/
inductive FineFetchError
  | notFound
  | vehicleMissing
  | unauthorized
  deriving DecidableEq, Repr

/-- `fetchFineDetails` (src/src/screens/FineDetailsScreen.tsx lines 47–108):
the fine row is fetched by id with its joined vehicle; a missing vehicle
raises "Vehicle information not found"; a vehicle whose `owner_id` differs
from the caller raises "Unauthorized"; otherwise the fine with its vehicle
details is returned. -/
def fetchFineDetails (fines : List Fine) (vehicles : List Vehicle)
    (fineId userId : String) : Except FineFetchError (Fine × Vehicle) :=
  match fines.find? (fun f => f.id = fineId) with
  | none => Except.error FineFetchError.notFound
  | some f =>
    match vehicles.find? (fun v => v.id = f.vehicle_id) with
    | none => Except.error FineFetchError.vehicleMissing
    | some v =>
      if v.owner_id ≠ some userId then Except.error FineFetchError.unauthorized
      else Except.ok (f, v)

/-! ## Plate search (C3): src/src/screens/IssueFineScreen.tsx -/

/-- License plates are formatted `licensePlate.trim().toUpperCase()` before
searching or storing. -/
def formatPlate (plate : String) : String := jsToUpper (jsTrim plate)

/-- Case-insensitive substring containment, modelling the SQL
`ILIKE '%pat%'` filter. -/
def ilikeContains (hay pat : String) : Bool :=
  let h := (jsToLower hay).data
  let p := (jsToLower pat).data
  (List.range (h.length + 1)).any (fun i => p.isPrefixOf (h.drop i))

/-- The exact pass: `vehicles.select('*').eq('license_plate', formatted)`. -/
def exactMatches (db : List Vehicle) (plate : String) : List Vehicle :=
  db.filter (fun v => v.license_plate = formatPlate plate)

/-- The fallback pass:
`vehicles.select('*').ilike('license_plate', `%formatted%`)`. -/
def fallbackMatches (db : List Vehicle) (plate : String) : List Vehicle :=
  db.filter (fun v => ilikeContains v.license_plate (formatPlate plate))

/-- Result of a plate search: the selected vehicle together with whether the
"Multiple Matches" warning was raised, or no result. -/
inductive SearchOutcome
  | found (v : Vehicle) (ambiguous : Bool)
  | notFound
  deriving DecidableEq, Repr

/-- `searchVehicle` (issue-fine form, src/src/screens/IssueFineScreen.tsx
lines 44–91): exact match first, its first row taken without any warning;
only when the exact pass returns zero rows is the `ilike` fallback run, whose
first row is taken with a "Multiple Matches" alert when it returned more than
one row. -/
def searchVehicle (db : List Vehicle) (plate : String) : SearchOutcome :=
  match exactMatches db plate with
  | v :: _ => SearchOutcome.found v false
  | [] =>
    match fallbackMatches db plate with
    | [] => SearchOutcome.notFound
    | [v] => SearchOutcome.found v false
    | v :: _ :: _ => SearchOutcome.found v true

/-- `searchVehicle` (record-tow form, src/src/screens/IssueFineScreen.tsx
lines 458–551): the exact pass's rows are used when nonempty, otherwise the
`ilike` fallback's rows; the combined result list is then switched on its
length — empty is not-found, one row is an unambiguous hit, and more than one
row takes the first with the "Multiple Matches" alert. -/
def searchVehicleTow (db : List Vehicle) (plate : String) : SearchOutcome :=
  let data :=
    match exactMatches db plate with
    | [] => fallbackMatches db plate
    | v :: rest => v :: rest
  match data with
  | [] => SearchOutcome.notFound
  | [v] => SearchOutcome.found v false
  | v :: _ :: _ => SearchOutcome.found v true

/-! ## Fine payment (C5, C6): src/src/screens/FineDetailsScreen.tsx -/

/-- The fine row inserted by `issueFine` (src/src/screens/IssueFineScreen.tsx
lines 93–117) and by the tow flow's fine insert (lines 645–663): status
`unpaid`, no payment date, no transaction id.  The row id is generated by the
database and taken as a parameter. -/
def issueFineRow (id vehicleId : String) (amount : Nat) (descr : String)
    (uid : String) (now due : Nat) (towId : Option String) : Fine :=
  { id := id
    vehicle_id := vehicleId
    amount := amount
    description := descr
    issue_date := now
    due_date := some due
    status := FineStatus.unpaid
    payment_date := none
    transaction_id := none
    tow_id := towId
    created_by := some uid }

/-- `processPayment`'s database update (src/src/screens/FineDetailsScreen.tsx
lines 142–187): one `update` call setting `status = 'paid'`, the payment
timestamp and the generated transaction id together. -/
def processPayment (f : Fine) (now : Nat) (txId : String) : Fine :=
  { f with
    status := FineStatus.paid
    payment_date := some now
    transaction_id := some txId }

/-- Outcome of an attempt to pay a fine. -/
inductive PayOutcome
  | alreadyPaid (f : Fine)
  | paidNow (f : Fine)
  deriving DecidableEq, Repr

/-- The pay flow (src/src/screens/FineDetailsScreen.tsx lines 133–140 and
142–187): `handlePayFine` rejects with the "Already Paid" alert when the
fine's status is already `paid` and otherwise opens the payment modal, whose
confirmation runs `processPayment`. -/
def payFine (f : Fine) (now : Nat) (txId : String) : PayOutcome :=
  if f.status = FineStatus.paid then PayOutcome.alreadyPaid f
  else PayOutcome.paidNow (processPayment f now txId)

/-- The fine states reachable through the app's own writes: creation by the
fine-issuing flows, and the payment update. -/
inductive ReachableFine : Fine → Prop
  | issued (id vehicleId : String) (amount : Nat) (descr uid : String)
      (now due : Nat) (towId : Option String) :
      ReachableFine (issueFineRow id vehicleId amount descr uid now due towId)
  | paid (f : Fine) (now : Nat) (txId : String) :
      ReachableFine f → ReachableFine (processPayment f now txId)

/-! ## Fine display (C7) -/

/-- `isPastDue` (src/src/screens/FineDetailsScreen.tsx lines 302–304):
`due_date && isAfter(new Date(), parseISO(due_date)) && status === 'unpaid'`. -/
def isPastDue (f : Fine) (now : Nat) : Bool :=
  match f.due_date with
  | none => false
  | some d => decide (d < now) && decide (f.status = FineStatus.unpaid)

/-- The status badge shown by the fine-details screen:
`<StatusBadge status={isPastDue ? 'overdue' : fineDetails.status} />`
(src/src/screens/FineDetailsScreen.tsx line 326). -/
def detailDisplayedStatus (f : Fine) (now : Nat) : FineStatus :=
  if isPastDue f now then FineStatus.overdue else f.status

/-- The status badge shown by the list item
(src/src/components/FineItem.tsx lines 30–58): the stored `status` prop is
displayed verbatim (`status.toUpperCase()`), with no derivation from the due
date. -/
def fineItemDisplayedStatus (f : Fine) : FineStatus := f.status

/-! ## Complaint status update (C8): src/unnamed/part_005 -/

/-- `updateComplaintStatus` (src/unnamed/part_005 lines 216–241) applied to
the targeted row: `updateData` always carries the new status; the response is
added only when one was passed and is truthy; `resolved_at` and `resolved_by`
are added only when the new status is `resolved`. -/
def updateComplaintStatus (c : Complaint) (newStatus : ComplaintStatus)
    (response : Option String) (uid : String) (now : Nat) : Complaint :=
  let c1 := { c with status := newStatus }
  let c2 :=
    match response with
    | none => c1
    | some r => if r = "" then c1 else { c1 with response := some r }
  if newStatus = ComplaintStatus.resolved then
    { c2 with resolved_at := some now, resolved_by := some uid }
  else c2

/-- `handleStatusChange` (src/unnamed/part_005 lines 280–296) after the
confirmation dialog: the quick status buttons call `updateComplaintStatus`
with no response argument. -/
def handleStatusChange (c : Complaint) (newStatus : ComplaintStatus)
    (uid : String) (now : Nat) : Complaint :=
  updateComplaintStatus c newStatus none uid now

/-! ## Tow-recording flow (C9, C10): src/src/screens/IssueFineScreen.tsx -/

/-- The vehicle row built by `handleSubmitTow` when no existing vehicle was
found (src/src/screens/IssueFineScreen.tsx lines 592–605): plate trimmed and
upper-cased, `make`/`model` defaulting to `"Unknown"` and `color` to
`"unknown"` when the operator left the field empty, `registered_name`
collapsing to null when empty, and `owner_id` null.  The row id is generated
by the database and taken as a parameter. -/
def newVehicleData (id licensePlate make model color registeredName : String) :
    Vehicle :=
  { id := id
    license_plate := formatPlate licensePlate
    make := if make = "" then "Unknown" else make
    model := if model = "" then "Unknown" else model
    color := if color = "" then "unknown" else color
    registered_name := if registeredName = "" then none else some registeredName
    owner_id := none }

/-- The alert `handleSubmitTow` ends with. -/
inductive SubmitAlert
  | successMsg
  | errorFailedTow
  deriving DecidableEq, Repr

/-- Observable outcome of one run of `handleSubmitTow`: which rows were left
persisted in the backend by the sequence, whether the vehicle-creation
warning alert was raised along the way, and the final alert. -/
structure SubmitResult where
  vehicleInserted : Bool
  towInserted : Bool
  fineInserted : Bool
  notifInserted : Bool
  vehicleWarning : Bool
  alert : SubmitAlert
  deriving DecidableEq, Repr

/-- `handleSubmitTow` (src/src/screens/IssueFineScreen.tsx lines 592–682)
with the backend's success or failure of each insert supplied as an oracle
flag.  The sequence: when no vehicle was found, insert one (a failure only
raises the "Proceeding with tow record only" warning and leaves the vehicle
id undefined); insert the tow (a failure throws into the catch, which shows
the failure alert — nothing later runs, nothing earlier is undone); when a
fine was requested and a vehicle id exists, insert the fine (a failure throws
into the same catch, the already-inserted tow persisting); when the found
vehicle has an owner, insert the notification (a failure is only logged); then
show the success alert. -/
def handleSubmitTow (vehicleFound : Option Vehicle) (issueFineToo : Bool)
    (vehicleInsertOk towInsertOk fineInsertOk notifInsertOk : Bool) :
    SubmitResult :=
  let vehicleInserted := vehicleFound.isNone && vehicleInsertOk
  let vehicleWarning := vehicleFound.isNone && !vehicleInsertOk
  let haveVehicleId := vehicleFound.isSome || vehicleInserted
  if !towInsertOk then
    { vehicleInserted := vehicleInserted
      towInserted := false
      fineInserted := false
      notifInserted := false
      vehicleWarning := vehicleWarning
      alert := SubmitAlert.errorFailedTow }
  else
    let fineAttempted := issueFineToo && haveVehicleId
    if fineAttempted && !fineInsertOk then
      { vehicleInserted := vehicleInserted
        towInserted := true
        fineInserted := false
        notifInserted := false
        vehicleWarning := vehicleWarning
        alert := SubmitAlert.errorFailedTow }
    else
      let notifAttempted :=
        match vehicleFound with
        | some v => v.owner_id.isSome
        | none => false
      { vehicleInserted := vehicleInserted
        towInserted := true
        fineInserted := fineAttempted
        notifInserted := notifAttempted && notifInsertOk
        vehicleWarning := vehicleWarning
        alert := SubmitAlert.successMsg }

/-! ## Shared helper lemmas -/

/-- Invariant of the reachable fine states: the creation flows leave both
payment fields null with status `unpaid`, and the payment update sets status
`paid` with both fields populated. -/
theorem reachableFine_cases (f : Fine) (h : ReachableFine f) :
    (f.status = FineStatus.unpaid ∧ f.payment_date = none ∧
      f.transaction_id = none) ∨
    (f.status = FineStatus.paid ∧ ∃ t x, f.payment_date = some t ∧
      f.transaction_id = some x) := by
  induction h with
  | issued id vehicleId amount descr uid now due towId =>
    exact Or.inl ⟨rfl, rfl, rfl⟩
  | paid g now txId _ _ =>
    exact Or.inr ⟨rfl, now, txId, rfl, rfl⟩

/-! ## Claim theorems -/

/-- C1 counterexample: the role string `"OWNER"` is not one of the recognized
values `'owner'`, `'staff'`, `'officer'`, yet `navigateToDashboard` routes it
to the owner dashboard, not to login — the function lowercases the role
before matching. -/
theorem C1_counterexample :
    ("OWNER" ≠ "owner" ∧ "OWNER" ≠ "staff" ∧ "OWNER" ≠ "officer") ∧
    navigateToDashboard (some "OWNER") = Destination.ownerDashboard := by
  decide

/-- C1 (amended): `navigateToDashboard` routes to login whenever the role is
missing or its lowercased value is not one of `owner`/`staff`/`officer`;
a role whose lowercased value is recognized routes to that role's dashboard;
and the mapping is deterministic (equal session role values always yield the
same destination). -/
theorem C1_amended (role : Option String) :
    ((role = none ∨ ∃ r, role = some r ∧
        jsToLower r ∉ (["owner", "staff", "officer"] : List String)) →
      navigateToDashboard role = Destination.login) ∧
    (∀ r, role = some r → jsToLower r = "owner" →
      navigateToDashboard role = Destination.ownerDashboard) ∧
    (∀ r, role = some r → jsToLower r = "staff" →
      navigateToDashboard role = Destination.staffDashboard) ∧
    (∀ r, role = some r → jsToLower r = "officer" →
      navigateToDashboard role = Destination.officerDashboard) ∧
    (∀ role2, role = role2 →
      navigateToDashboard role = navigateToDashboard role2) := by
  refine ⟨?_, ?_, ?_, ?_, ?_⟩
  · rintro (rfl | ⟨r, rfl, hr⟩)
    · rfl
    · simp only [List.mem_cons, List.mem_singleton, not_or] at hr
      obtain ⟨h1, h2, h3⟩ := hr
      by_cases h0 : r = ""
      · simp [navigateToDashboard, h0]
      · simp [navigateToDashboard, h0, h1, h2, h3]
  · rintro r rfl hl
    have h0 : r ≠ "" := by
      intro h; rw [h] at hl; exact absurd hl (by decide)
    simp [navigateToDashboard, h0, hl]
  · rintro r rfl hl
    have h0 : r ≠ "" := by
      intro h; rw [h] at hl; exact absurd hl (by decide)
    have h1 : jsToLower r ≠ "owner" := by rw [hl]; decide
    simp [navigateToDashboard, h0, h1, hl]
  · rintro r rfl hl
    have h0 : r ≠ "" := by
      intro h; rw [h] at hl; exact absurd hl (by decide)
    have h1 : jsToLower r ≠ "owner" := by rw [hl]; decide
    have h2 : jsToLower r ≠ "staff" := by rw [hl]; decide
    simp [navigateToDashboard, h0, h1, h2, hl]
  · rintro role2 rfl
    rfl

/-- C1 witness: an unrecognized backend role value routes to login. -/
theorem C1_amended_witness :
    navigateToDashboard (some "admin") = Destination.login :=
  (C1_amended (some "admin")).1 (Or.inr ⟨"admin", rfl, by decide⟩)

/-- C2: every row returned by the owner-scoped queries lies inside the
caller's permitted scope — the vehicle list only ever contains rows whose
`owner_id` is the caller, the complaint list only rows the caller submitted,
and the fine-details fetch returns a row only when the fine's vehicle belongs
to the caller, answering with the `Unauthorized` error whenever the resolved
vehicle has a different owner. -/
theorem C2_owner_scope (vdb : List Vehicle) (cdb : List Complaint)
    (fines : List Fine) (uid fid : String) :
    (∀ v ∈ fetchVehicles vdb uid, v.owner_id = some uid) ∧
    (∀ c ∈ fetchComplaints cdb uid, c.user_id = uid) ∧
    (∀ f v, fetchFineDetails fines vdb fid uid = Except.ok (f, v) →
      v.owner_id = some uid ∧ f ∈ fines ∧ v ∈ vdb ∧ f.id = fid) ∧
    (∀ f v, fines.find? (fun g => g.id = fid) = some f →
      vdb.find? (fun w => w.id = f.vehicle_id) = some v →
      v.owner_id ≠ some uid →
      fetchFineDetails fines vdb fid uid =
        Except.error FineFetchError.unauthorized) := by
  refine ⟨?_, ?_, ?_, ?_⟩
  · intro v hv
    have := (List.mem_filter.mp hv).2
    simpa using this
  · intro c hc
    rw [fetchComplaints, List.mem_mergeSort] at hc
    have := (List.mem_filter.mp hc).2
    simpa using this
  · intro f v hok
    unfold fetchFineDetails at hok
    cases hf : fines.find? (fun g => g.id = fid) with
    | none => simp only [hf] at hok; exact absurd hok (by simp)
    | some g =>
      simp only [hf] at hok
      cases hw : vdb.find? (fun w => w.id = g.vehicle_id) with
      | none => simp only [hw] at hok; exact absurd hok (by simp)
      | some w =>
        simp only [hw] at hok
        by_cases howner : w.owner_id ≠ some uid
        · simp only [if_pos howner] at hok
          exact absurd hok (by simp)
        · simp only [if_neg howner, Except.ok.injEq, Prod.mk.injEq] at hok
          push_neg at howner
          obtain ⟨rfl, rfl⟩ := hok
          refine ⟨howner, List.mem_of_find?_eq_some hf,
            List.mem_of_find?_eq_some hw, ?_⟩
          have := List.find?_some hf
          simpa using this
  · intro f v hf hw howner
    unfold fetchFineDetails
    simp only [hf, hw]
    rw [if_pos howner]

/-- C2 witness: in a concrete two-owner database, the owner-scoped vehicle
query only yields the caller's vehicle, and reading a fine on the other
owner's vehicle is rejected as unauthorized. -/
theorem C2_owner_scope_witness :
    (⟨"v1", "ABC123", "Toyota", "Corolla", "red", some "u1", none⟩ : Vehicle).owner_id
        = some "u1" ∧
    fetchFineDetails
        [⟨"f1", "v2", 100, "parking", 0, some 30, FineStatus.unpaid, none, none,
          none, some "staff1"⟩]
        [⟨"v1", "ABC123", "Toyota", "Corolla", "red", some "u1", none⟩,
         ⟨"v2", "XYZ999", "Honda", "Civic", "blue", some "u2", none⟩]
        "f1" "u1" = Except.error FineFetchError.unauthorized :=
  ⟨(C2_owner_scope
      [⟨"v1", "ABC123", "Toyota", "Corolla", "red", some "u1", none⟩,
       ⟨"v2", "XYZ999", "Honda", "Civic", "blue", some "u2", none⟩]
      [] [] "u1" "f1").1
      ⟨"v1", "ABC123", "Toyota", "Corolla", "red", some "u1", none⟩ (by decide),
   (C2_owner_scope
      [⟨"v1", "ABC123", "Toyota", "Corolla", "red", some "u1", none⟩,
       ⟨"v2", "XYZ999", "Honda", "Civic", "blue", some "u2", none⟩]
      []
      [⟨"f1", "v2", 100, "parking", 0, some 30, FineStatus.unpaid, none, none,
        none, some "staff1"⟩]
      "u1" "f1").2.2.2
      ⟨"f1", "v2", 100, "parking", 0, some 30, FineStatus.unpaid, none, none,
        none, some "staff1"⟩
      ⟨"v2", "XYZ999", "Honda", "Civic", "blue", some "u2", none⟩
      (by decide) (by decide) (by decide)⟩

/-- C3: both plate-search forms resolve the lookup in two passes — when the
exact case-normalized pass returns any row its first row is taken and the
fallback is never consulted; the substring fallback decides the outcome only
when the exact pass is empty, and whenever the fallback returns more than one
row the first is used with the ambiguity warning raised, never silently. -/
theorem C3_plate_two_pass (db : List Vehicle) (plate : String) :
    (∀ v rest, exactMatches db plate = v :: rest →
      searchVehicle db plate = SearchOutcome.found v false) ∧
    (exactMatches db plate = [] → fallbackMatches db plate = [] →
      searchVehicle db plate = SearchOutcome.notFound ∧
      searchVehicleTow db plate = SearchOutcome.notFound) ∧
    (∀ v, exactMatches db plate = [] → fallbackMatches db plate = [v] →
      searchVehicle db plate = SearchOutcome.found v false ∧
      searchVehicleTow db plate = SearchOutcome.found v false) ∧
    (∀ v w rest, exactMatches db plate = [] →
      fallbackMatches db plate = v :: w :: rest →
      searchVehicle db plate = SearchOutcome.found v true ∧
      searchVehicleTow db plate = SearchOutcome.found v true) := by
  refine ⟨?_, ?_, ?_, ?_⟩
  · intro v rest he
    unfold searchVehicle
    simp only [he]
  · intro he hf
    constructor
    · unfold searchVehicle
      simp only [he, hf]
    · unfold searchVehicleTow
      simp only [he, hf]
  · intro v he hf
    constructor
    · unfold searchVehicle
      simp only [he, hf]
    · unfold searchVehicleTow
      simp only [he, hf]
  · intro v w rest he hf
    constructor
    · unfold searchVehicle
      simp only [he, hf]
    · unfold searchVehicleTow
      simp only [he, hf]

/-- C3 witness: the spec's own example — the fallback substring search for
`"ABC"` against plates `ABC123` and `ABC456` matches both, uses the first and
reports the ambiguity. -/
theorem C3_plate_two_pass_witness :
    searchVehicle
        [⟨"v1", "ABC123", "Toyota", "Corolla", "red", some "u1", none⟩,
         ⟨"v2", "ABC456", "Honda", "Civic", "blue", some "u2", none⟩]
        "ABC"
      = SearchOutcome.found
          ⟨"v1", "ABC123", "Toyota", "Corolla", "red", some "u1", none⟩ true :=
  ((C3_plate_two_pass
      [⟨"v1", "ABC123", "Toyota", "Corolla", "red", some "u1", none⟩,
       ⟨"v2", "ABC456", "Honda", "Civic", "blue", some "u2", none⟩]
      "ABC").2.2.2
    ⟨"v1", "ABC123", "Toyota", "Corolla", "red", some "u1", none⟩
    ⟨"v2", "ABC456", "Honda", "Civic", "blue", some "u2", none⟩
    [] (by decide) (by decide)).1

/-- C4 counterexample: `fetchUserRole` maps a backend failure to the very
same null-role value it produces for a missing profile row — no distinct
error outcome exists — and an unrecognized stored role value such as
`"admin"` is returned verbatim rather than nulled. -/
theorem C4_counterexample :
    fetchUserRole RoleLookup.backendError = fetchUserRole RoleLookup.noRow ∧
    fetchUserRole RoleLookup.backendError = none ∧
    fetchUserRole (RoleLookup.row (some "admin")) = some "admin" := by
  decide

/-- C4 (amended): the session provider's `fetchUserRole` folds every lookup
failure — backend error or missing row — into the null role (logged only,
never surfaced), and passes a stored non-empty role value through verbatim;
only the login screen's own lookup (`handleLogin`) surfaces a failed profile
fetch as a "Profile Error" alert, distinct from the "No role assigned" alert
it shows for a null role. -/
theorem C4_amended :
    (fetchUserRole RoleLookup.backendError = none ∧
     fetchUserRole RoleLookup.noRow = none) ∧
    (∀ s, fetchUserRole (RoleLookup.row (some s)) =
      if s = "" then none else some s) ∧
    (handleLoginRole RoleLookup.backendError =
        LoginOutcome.alertProfileError ∧
     handleLoginRole (RoleLookup.row none) = LoginOutcome.alertNoRole ∧
     handleLoginRole RoleLookup.backendError ≠
        handleLoginRole (RoleLookup.row none)) := by
  refine ⟨⟨rfl, rfl⟩, ?_, rfl, rfl, by decide⟩
  intro s
  rfl

/-- C5: paying a fine is a single update writing status `paid`, the payment
timestamp and the transaction id together, and consequently every fine state
reachable through the app's writes has both payment fields absent while
unpaid and both present once paid — never one without the other. -/
theorem C5_payment_atomic (f : Fine) (now : Nat) (tx : String)
    (h : ReachableFine f) :
    ((processPayment f now tx).status = FineStatus.paid ∧
     (processPayment f now tx).payment_date = some now ∧
     (processPayment f now tx).transaction_id = some tx) ∧
    ((f.status = FineStatus.unpaid ∧ f.payment_date = none ∧
       f.transaction_id = none) ∨
     (f.status = FineStatus.paid ∧ ∃ t x, f.payment_date = some t ∧
       f.transaction_id = some x)) :=
  ⟨⟨rfl, rfl, rfl⟩, reachableFine_cases f h⟩

/-- C5 witness: a freshly issued fine has both payment fields null, and
paying it populates both together. -/
theorem C5_payment_atomic_witness :
    ((processPayment (issueFineRow "f1" "v1" 100 "parking" "staff1" 10 40 none)
        50 "TX-1").payment_date = some 50 ∧
     (processPayment (issueFineRow "f1" "v1" 100 "parking" "staff1" 10 40 none)
        50 "TX-1").transaction_id = some "TX-1") ∧
    (issueFineRow "f1" "v1" 100 "parking" "staff1" 10 40 none).payment_date
        = none :=
  ⟨⟨(C5_payment_atomic (issueFineRow "f1" "v1" 100 "parking" "staff1" 10 40 none)
        50 "TX-1"
        (ReachableFine.issued "f1" "v1" 100 "parking" "staff1" 10 40 none)).1.2.1,
    (C5_payment_atomic (issueFineRow "f1" "v1" 100 "parking" "staff1" 10 40 none)
        50 "TX-1"
        (ReachableFine.issued "f1" "v1" 100 "parking" "staff1" 10 40 none)).1.2.2⟩,
   rfl⟩

/-- C6: invoking the pay flow on a fine whose status is already `paid`
yields the explicit "Already Paid" rejection carrying the fine unchanged, so
a second submission — in particular one right after a successful payment —
never overwrites `payment_date` or `transaction_id`. -/
theorem C6_pay_idempotent (f g : Fine) (now now2 : Nat) (tx tx2 : String)
    (h : f.status = FineStatus.paid) :
    payFine f now tx = PayOutcome.alreadyPaid f ∧
    payFine (processPayment g now tx) now2 tx2 =
      PayOutcome.alreadyPaid (processPayment g now tx) ∧
    (processPayment g now tx).payment_date = some now ∧
    (processPayment g now tx).transaction_id = some tx := by
  refine ⟨?_, ?_, rfl, rfl⟩
  · simp [payFine, h]
  · simp [payFine, processPayment]

/-- C6 witness: a paid fine submitted again is rejected with the fine
unchanged. -/
theorem C6_pay_idempotent_witness :
    payFine
        ⟨"f1", "v1", 100, "parking", 0, some 30, FineStatus.paid, some 10,
          some "TX-OLD", none, some "staff1"⟩ 99 "TX-NEW"
      = PayOutcome.alreadyPaid
        ⟨"f1", "v1", 100, "parking", 0, some 30, FineStatus.paid, some 10,
          some "TX-OLD", none, some "staff1"⟩ :=
  (C6_pay_idempotent
    ⟨"f1", "v1", 100, "parking", 0, some 30, FineStatus.paid, some 10,
      some "TX-OLD", none, some "staff1"⟩
    ⟨"f1", "v1", 100, "parking", 0, some 30, FineStatus.paid, some 10,
      some "TX-OLD", none, some "staff1"⟩
    99 0 "TX-NEW" "x" rfl).1

/-- C7 counterexample: the fine list item displays the stored status
verbatim — a fine with status `unpaid` whose due date (5) lies before the
read time (10) is shown as `unpaid`, not `overdue`, so the overdue derivation
does not happen on every read/display path. -/
theorem C7_counterexample :
    (let f : Fine := ⟨"f1", "v1", 100, "parking", 0, some 5,
        FineStatus.unpaid, none, none, none, none⟩
     f.status = FineStatus.unpaid ∧ f.due_date = some 5 ∧ 5 < 10 ∧
     fineItemDisplayedStatus f ≠ FineStatus.overdue) := by
  decide

/-- C7 (amended): `overdue` is never stored by the app's own writes; the
detail screen derives it on each read — showing overdue exactly when the
stored status is `unpaid` and the read time is past the due date, and showing
a `paid` fine as paid regardless of its due date — while the list item
displays the stored status without the derivation. -/
theorem C7_amended (f : Fine) (now : Nat) (h : ReachableFine f) :
    f.status ≠ FineStatus.overdue ∧
    (detailDisplayedStatus f now = FineStatus.overdue ↔
      (f.status = FineStatus.unpaid ∧ ∃ d, f.due_date = some d ∧ d < now)) ∧
    (f.status = FineStatus.paid →
      detailDisplayedStatus f now = FineStatus.paid) ∧
    fineItemDisplayedStatus f = f.status := by
  have hcases := reachableFine_cases f h
  have hstat : f.status = FineStatus.unpaid ∨ f.status = FineStatus.paid := by
    rcases hcases with ⟨h1, _⟩ | ⟨h1, _⟩
    · exact Or.inl h1
    · exact Or.inr h1
  refine ⟨?_, ?_, ?_, rfl⟩
  · rcases hstat with h1 | h1 <;> simp [h1]
  · rcases hstat with h1 | h1
    · cases hd : f.due_date with
      | none => simp [detailDisplayedStatus, isPastDue, hd, h1]
      | some d =>
        by_cases hlt : d < now
        · simp [detailDisplayedStatus, isPastDue, hd, h1, hlt]
        · simp [detailDisplayedStatus, isPastDue, hd, h1, hlt]
    · cases hd : f.due_date with
      | none => simp [detailDisplayedStatus, isPastDue, hd, h1]
      | some d => simp [detailDisplayedStatus, isPastDue, hd, h1]
  · intro h1
    cases hd : f.due_date with
    | none => simp [detailDisplayedStatus, isPastDue, hd, h1]
    | some d => simp [detailDisplayedStatus, isPastDue, hd, h1]

/-- C7 witness: a freshly issued unpaid fine with due date 5 read at time 10
displays as overdue on the detail screen, and once paid it displays as paid
at the same read time. -/
theorem C7_amended_witness :
    detailDisplayedStatus (issueFineRow "f1" "v1" 100 "parking" "staff1" 0 5 none)
        10 = FineStatus.overdue ∧
    detailDisplayedStatus
        (processPayment (issueFineRow "f1" "v1" 100 "parking" "staff1" 0 5 none)
          11 "TX-1") 12 = FineStatus.paid :=
  ⟨((C7_amended (issueFineRow "f1" "v1" 100 "parking" "staff1" 0 5 none) 10
      (ReachableFine.issued "f1" "v1" 100 "parking" "staff1" 0 5 none)).2.1).mpr
    ⟨rfl, 5, rfl, by decide⟩,
   ((C7_amended
      (processPayment (issueFineRow "f1" "v1" 100 "parking" "staff1" 0 5 none)
        11 "TX-1") 12
      (ReachableFine.paid _ 11 "TX-1"
        (ReachableFine.issued "f1" "v1" 100 "parking" "staff1" 0 5 none))).2.2.1)
    rfl⟩

/-- C8 counterexample: the quick-resolve path (`handleStatusChange`) calls
the update with no response, so a pending complaint lands in status
`resolved` with a null response; and a transition to `rejected` — even with a
response attached — writes neither resolver identity nor resolution
timestamp. -/
theorem C8_counterexample :
    (let c : Complaint := ⟨"c1", "u1", "noise", ComplaintStatus.pending,
        none, none, none, 0⟩
     (handleStatusChange c ComplaintStatus.resolved "staff1" 100).status =
        ComplaintStatus.resolved ∧
     (handleStatusChange c ComplaintStatus.resolved "staff1" 100).response =
        none ∧
     (updateComplaintStatus c ComplaintStatus.rejected (some "no merit")
        "staff1" 100).resolved_at = none ∧
     (updateComplaintStatus c ComplaintStatus.rejected (some "no merit")
        "staff1" 100).resolved_by = none) := by
  decide

/-- C8 (amended): transitioning a complaint to `resolved` writes the resolver
identity and resolution timestamp simultaneously with the status, but the
response is written only when a non-empty one is supplied — the quick-resolve
path supplies none, leaving the previous (possibly null) response — and a
transition to `rejected` writes only the status (plus a supplied response),
never the resolver identity or timestamp. -/
theorem C8_amended (c : Complaint) (resp : Option String) (uid : String)
    (now : Nat) :
    ((updateComplaintStatus c ComplaintStatus.resolved resp uid now).status =
        ComplaintStatus.resolved ∧
     (updateComplaintStatus c ComplaintStatus.resolved resp uid now).resolved_at
        = some now ∧
     (updateComplaintStatus c ComplaintStatus.resolved resp uid now).resolved_by
        = some uid) ∧
    (∀ r, resp = some r → r ≠ "" →
      (updateComplaintStatus c ComplaintStatus.resolved resp uid now).response
        = some r) ∧
    (resp = none →
      (updateComplaintStatus c ComplaintStatus.resolved resp uid now).response
        = c.response) ∧
    ((updateComplaintStatus c ComplaintStatus.rejected resp uid now).status =
        ComplaintStatus.rejected ∧
     (updateComplaintStatus c ComplaintStatus.rejected resp uid now).resolved_at
        = c.resolved_at ∧
     (updateComplaintStatus c ComplaintStatus.rejected resp uid now).resolved_by
        = c.resolved_by) := by
  refine ⟨?_, ?_, ?_, ?_⟩
  · cases resp with
    | none => exact ⟨rfl, rfl, rfl⟩
    | some r =>
      by_cases hr : r = "" <;>
        simp [updateComplaintStatus, hr]
  · rintro r rfl hr
    simp [updateComplaintStatus, hr]
  · rintro rfl
    rfl
  · cases resp with
    | none => exact ⟨rfl, rfl, rfl⟩
    | some r =>
      by_cases hr : r = "" <;>
        simp [updateComplaintStatus, hr]

/-- C8 witness: resolving with a non-empty response supplied does attach it
together with the status. -/
theorem C8_amended_witness :
    (updateComplaintStatus
        ⟨"c1", "u1", "noise", ComplaintStatus.pending, none, none, none, 0⟩
        ComplaintStatus.resolved (some "done") "staff1" 100).response =
      some "done" :=
  ((C8_amended
      ⟨"c1", "u1", "noise", ComplaintStatus.pending, none, none, none, 0⟩
      (some "done") "staff1" 100).2.1) "done" rfl (by decide)

/-- C9: the vehicle row the tow flow creates for an unknown plate always has
a null `ownerId`, stores the plate trimmed and upper-cased, and fills make,
model and color from the operator's values with the explicit
`"Unknown"`/`"unknown"` sentinel substituted for an empty field — none of the
three is ever left blank. -/
theorem C9_unknown_vehicle (id plate make model color reg : String) :
    (newVehicleData id plate make model color reg).owner_id = none ∧
    (newVehicleData id plate make model color reg).license_plate =
      formatPlate plate ∧
    (make = "" → (newVehicleData id plate make model color reg).make =
      "Unknown") ∧
    (make ≠ "" → (newVehicleData id plate make model color reg).make = make) ∧
    (model = "" → (newVehicleData id plate make model color reg).model =
      "Unknown") ∧
    (model ≠ "" → (newVehicleData id plate make model color reg).model =
      model) ∧
    (color = "" → (newVehicleData id plate make model color reg).color =
      "unknown") ∧
    (color ≠ "" → (newVehicleData id plate make model color reg).color =
      color) ∧
    (newVehicleData id plate make model color reg).make ≠ "" ∧
    (newVehicleData id plate make model color reg).model ≠ "" ∧
    (newVehicleData id plate make model color reg).color ≠ "" := by
  refine ⟨rfl, rfl, ?_, ?_, ?_, ?_, ?_, ?_, ?_, ?_, ?_⟩
  · intro h; simp [newVehicleData, h]
  · intro h; simp [newVehicleData, h]
  · intro h; simp [newVehicleData, h]
  · intro h; simp [newVehicleData, h]
  · intro h; simp [newVehicleData, h]
  · intro h; simp [newVehicleData, h]
  · by_cases h : make = "" <;> simp [newVehicleData, h]
  · by_cases h : model = "" <;> simp [newVehicleData, h]
  · by_cases h : color = "" <;> simp [newVehicleData, h]

/-- C9 witness: with every operator field left empty, the created row carries
the sentinels, a null owner and the upper-cased plate. -/
theorem C9_unknown_vehicle_witness :
    (newVehicleData "v9" " xyz999 " "" "" "" "").owner_id = none ∧
    (newVehicleData "v9" " xyz999 " "" "" "" "").make = "Unknown" ∧
    (newVehicleData "v9" " xyz999 " "" "" "" "").color = "unknown" ∧
    (newVehicleData "v9" " xyz999 " "" "" "" "").license_plate = "XYZ999" :=
  ⟨(C9_unknown_vehicle "v9" " xyz999 " "" "" "" "").1,
   (C9_unknown_vehicle "v9" " xyz999 " "" "" "" "").2.2.1 rfl,
   (C9_unknown_vehicle "v9" " xyz999 " "" "" "" "").2.2.2.2.2.2.1 rfl,
   by decide⟩

/-- C10 counterexample: when the notification insert fails after the tow
insert succeeded, the tow persists but the failed step is not surfaced — the
caller is shown the success alert, the failure being only logged. -/
theorem C10_counterexample :
    (let r := handleSubmitTow
        (some ⟨"v1", "ABC123", "Toyota", "Corolla", "red", some "u1", none⟩)
        false true true true false
     r.towInserted = true ∧ r.notifInserted = false ∧
     r.alert = SubmitAlert.successMsg) := by
  decide

/-- C10 (amended): the tow-recording sequence is three independent writes
with no rollback — when the fine or notification step fails the
already-inserted tow persists — but only the fine step's failure is surfaced
(as a generic failure alert); a notification-step failure is logged and the
caller still sees the success message, and a tow-insert failure produces the
failure alert with no tow row. -/
theorem C10_amended (vf : Option Vehicle) (fineToo vOk nOk : Bool) :
    (fineToo = true → (vf.isSome || (vf.isNone && vOk)) = true →
      (handleSubmitTow vf fineToo vOk true false nOk).towInserted = true ∧
      (handleSubmitTow vf fineToo vOk true false nOk).fineInserted = false ∧
      (handleSubmitTow vf fineToo vOk true false nOk).alert =
        SubmitAlert.errorFailedTow) ∧
    ((handleSubmitTow vf fineToo vOk true true false).towInserted = true ∧
     (handleSubmitTow vf fineToo vOk true true false).notifInserted = false ∧
     (handleSubmitTow vf fineToo vOk true true false).alert =
        SubmitAlert.successMsg) ∧
    ((handleSubmitTow vf fineToo vOk false true true).towInserted = false ∧
     (handleSubmitTow vf fineToo vOk false true true).alert =
        SubmitAlert.errorFailedTow) := by
  refine ⟨?_, ?_, ?_⟩
  · rintro rfl hid
    cases vf with
    | none =>
      simp only [Option.isSome_none, Option.isNone_none, Bool.false_or,
        Bool.true_and] at hid
      simp [handleSubmitTow, hid]
    | some v =>
      cases vOk <;> simp [handleSubmitTow]
  · cases vf with
    | none => cases vOk <;> cases fineToo <;> simp [handleSubmitTow]
    | some v => cases vOk <;> cases fineToo <;> simp [handleSubmitTow]
  · cases vf with
    | none => cases vOk <;> simp [handleSubmitTow]
    | some v => cases vOk <;> simp [handleSubmitTow]

/-- C10 witness: with a found vehicle and a requested fine whose insert
fails, the tow row persists and the failure alert is raised. -/
theorem C10_amended_witness :
    (handleSubmitTow
        (some ⟨"v1", "ABC123", "Toyota", "Corolla", "red", some "u1", none⟩)
        true true true false true).towInserted = true ∧
    (handleSubmitTow
        (some ⟨"v1", "ABC123", "Toyota", "Corolla", "red", some "u1", none⟩)
        true true true false true).alert = SubmitAlert.errorFailedTow :=
  ⟨((C10_amended
      (some ⟨"v1", "ABC123", "Toyota", "Corolla", "red", some "u1", none⟩)
      true true true).1 rfl (by decide)).1,
   ((C10_amended
      (some ⟨"v1", "ABC123", "Toyota", "Corolla", "red", some "u1", none⟩)
      true true true).1 rfl (by decide)).2.2⟩

end Towify
